import Mathlib

/-!
Shallow embedding of the FastAPI blog backend (users and posts, JWT-based
authentication) and proofs about its specified behavior.

Source layout modelled here:
  * `auth.py`            — password hashing wrappers and JWT issue/verify
  * `schemas.py`         — pydantic request validation (email lower-casing)
  * `models.py`          — `User` and `Post` ORM models (cascade delete)
  * `routers/users.py`   — current user endpoints (create, token login,
                           `/me`, update, delete, list posts)
  * `routers/posts.py`   — current post endpoints (list, create, get,
                           update, delete)
  * `main.py`            — stale earlier versions of several endpoints
                           (case-sensitive username check, unordered
                           listings, user insert without a password hash);
                           embedded separately under the `main` prefix.

External collaborators are modelled at the level of their documented
contracts: the PyJWT `decode` with `options={"require": ["exp", "sub"]}`
is modelled by `jwtDecode` over an abstract token that is either
undecodable/badly-signed or carries a signature-valid payload; the pwdlib
Argon2 hasher is modelled as an ideal deterministic salted digest over a
structured PHC-style hash value. The database session is modelled as an
explicit state (`AppState`): a list of user rows and a list of post rows
in insertion order; a SQL `SELECT` without `ORDER BY` returns the stored
order, and `ORDER BY date_posted DESC` is modelled by an insertion sort.
-/

namespace FastAPIBlog

/-! ### Password hasher (`auth.py` wrapping pwdlib's recommended Argon2)

The external hasher is modelled as an ideal deterministic salted digest:
`hash` draws a salt (passed in explicitly here) and produces a PHC-style
structured value recording the algorithm, the salt and a digest that is a
function of salt and password; `verify` recomputes the digest and
compares. -/

/-- Model digest of the external Argon2 hasher: a deterministic function
of the salt and the password (the real digest is a cryptographic function
of exactly these inputs). -/
def argon2Digest (salt : Nat) (password : String) : Nat :=
  password.data.foldl (fun a c => a * 131 + c.toNat) (salt + 7)

/-- A PHC-style password hash value `$<algorithm>$<salt>$<digest>`. -/
structure PHCHash where
  algorithm : String
  salt : Nat
  digest : Nat
deriving DecidableEq, Repr

/-- `pwdlib.PasswordHash.recommended().hash`: Argon2id with a fresh salt. -/
def pwdlibHash (salt : Nat) (password : String) : PHCHash :=
  ⟨"argon2id", salt, argon2Digest salt password⟩

/-- `pwdlib.PasswordHash.recommended().verify` on a recognized Argon2
hash: recompute the digest with the stored salt and compare. -/
def pwdlibVerify (password : String) (h : PHCHash) : Bool :=
  h.algorithm == "argon2id" && h.digest == argon2Digest h.salt password

/-- `auth.password_hash`: delegates to the pwdlib hasher. -/
def password_hash (salt : Nat) (password : String) : PHCHash :=
  pwdlibHash salt password

/-- `auth.verify_password`: delegates to the pwdlib hasher. -/
def verify_password (plain_password : String) (hashed_password : PHCHash) : Bool :=
  pwdlibVerify plain_password hashed_password

/-- A row of the `users` table (`models.py`, class `User`).
`image_file` is nullable with default `None`; the `password_hash` column
holds the PHC hash string, kept here in structured form. -/
structure User where
  id : Nat
  username : String
  email : String
  password_hash : PHCHash
  image_file : Option String := none
deriving DecidableEq, Repr

/-- A row of the `posts` table (`models.py`, class `Post`).
`date_posted` is the UTC creation timestamp, modelled as a natural
number of seconds. -/
structure Post where
  id : Nat
  title : String
  content : String
  user_id : Nat
  date_posted : Nat
deriving DecidableEq, Repr

/-- The database state: user rows and post rows, each list in insertion
order (a `SELECT` with no `ORDER BY` yields this order). -/
structure AppState where
  users : List User
  posts : List Post
deriving DecidableEq, Repr

/-! ### Token service (`auth.py`) -/

/-- The claims of a decoded JWT payload that this application reads.
With PyJWT ≥ 2.10 a present `sub` claim must be a string, so `sub` is
modelled as an optional string. -/
structure TokenPayload where
  sub : Option String
  exp : Option Int
deriving DecidableEq, Repr

/-- An incoming bearer token, seen through PyJWT: either it fails to
decode at all (malformed, or signature check fails), or it is a
well-formed token with a valid signature carrying a payload. -/
inductive JwtToken where
  | malformed
  | signed (p : TokenPayload)
deriving DecidableEq, Repr

/-- `jwt.decode(token, key, algorithms=[…], options={"require": ["exp", "sub"]})`
at time `now`: fails (raises `InvalidTokenError`) on a malformed token or
bad signature, on a missing required `exp` or `sub` claim, and on an
expired token (PyJWT raises `ExpiredSignatureError` when `exp ≤ now`,
with zero leeway); otherwise returns the payload. -/
def jwtDecode (t : JwtToken) (now : Int) : Option TokenPayload :=
  match t with
  | .malformed => none
  | .signed p =>
    match p.exp, p.sub with
    | some e, some _ => if e ≤ now then none else some p
    | _, _ => none

/-- `auth.verify_access_token`: `jwt.decode` inside `try/except
jwt.InvalidTokenError`, returning `None` on any failure and
`payload.get("sub")` on success. -/
def verify_access_token (t : JwtToken) (now : Int) : Option String :=
  match jwtDecode t now with
  | none => none
  | some payload => payload.sub

/-! ### Request schemas (`schemas.py`) -/

/-- Python's `str.lower()` (and SQL `lower(…)`): lower-case every
character. This is `String.toLower` written over the character list so
that it evaluates by kernel reduction. -/
def strLower (s : String) : String :=
  ⟨s.data.map Char.toLower⟩

/-- The `UserCreate` request body (`schemas.py`): username, email,
password, before validators run. -/
structure UserCreate where
  username : String
  email : String
  password : String
deriving DecidableEq, Repr

/-- The `UserBase.lowercase_email` pydantic validator: lower-cases the
email field before the model is constructed. The username has no such
validator. -/
def normalizeUserCreate (u : UserCreate) : UserCreate :=
  { u with email := strLower u.email }

/-- The `PostCreate` request body (`schemas.py`). -/
structure PostCreate where
  title : String
  content : String
  user_id : Nat
deriving DecidableEq, Repr

/-! ### User endpoints (`routers/users.py`) -/

/-- `create_user` in `routers/users.py` on an already-validated body:
rejects with 400 when some row's username matches case-insensitively
(`func.lower(User.username) == user.username.lower()`), then with 400
when some row's email matches exactly, otherwise inserts a new row with
the input username as given, the input email as given, and the hashed
password, and returns 201. Pair = (HTTP status, resulting user table);
on an HTTPException nothing was added, so the table is unchanged. -/
def createUserValidated (salt nextId : Nat) (db : List User) (user : UserCreate) :
    Nat × List User :=
  if db.any (fun u => strLower u.username == strLower user.username) then
    (400, db)
  else if db.any (fun u => u.email == user.email) then
    (400, db)
  else
    (201, db ++ [{ id := nextId, username := user.username, email := user.email,
                   password_hash := password_hash salt user.password }])

/-- The full `POST` handler: pydantic validation (which lower-cases the
email) followed by `create_user`. -/
def create_user (salt nextId : Nat) (db : List User) (raw : UserCreate) :
    Nat × List User :=
  createUserValidated salt nextId db (normalizeUserCreate raw)

/-- The stale `create_user` in `main.py`: the duplicate-username check
compares `User.username == user.username` exactly (no lower-casing), the
duplicate-email check is as in the router; the insert omits
`password_hash`, which `models.py` declares `nullable=False`, so the
commit raises an integrity error (500) and persists nothing. -/
def mainCreateUser (db : List User) (raw : UserCreate) : Nat × List User :=
  let user := normalizeUserCreate raw
  if db.any (fun u => u.username == user.username) then
    (400, db)
  else if db.any (fun u => u.email == user.email) then
    (400, db)
  else
    (500, db)

/-- Lookup `select(User).where(User.email == e)` followed by
`.scalars().first()`. -/
def findByEmail (db : List User) (e : String) : Option User :=
  db.find? (fun u => u.email == e)

/-- The issued token, as returned by `login_for_access_token`: the
`access_token` is a JWT whose payload is `{sub: str(user.id)}` plus the
expiry; it is modelled by that payload together with the fixed
`token_type` field. -/
structure Token where
  access_token_sub : String
  token_type : String
deriving DecidableEq, Repr

/-- A raised `HTTPException`: status code, detail, and the
`WWW-Authenticate` header when present. -/
structure HTTPError where
  status_code : Nat
  detail : String
  www_authenticate : Option String := none
deriving DecidableEq, Repr

/-- `login_for_access_token` in `routers/users.py`: look the user up by
`email == form.username.lower()`; if no user is found or the password
does not verify against the stored hash, raise the one 401
`HTTPException`; otherwise issue a token with `sub = str(user.id)`. -/
def login_for_access_token (db : List User) (formUsername formPassword : String) :
    Except HTTPError Token :=
  match findByEmail db (strLower formUsername) with
  | none =>
    .error ⟨401, "Incorrect email or password", some "Bearer"⟩
  | some user =>
    if verify_password formPassword user.password_hash then
      .ok ⟨toString user.id, "bearer"⟩
    else
      .error ⟨401, "Incorrect email or password", some "Bearer"⟩

/-- Decidable version of "this login attempt fails": the lookup finds no
user, or the found user's hash does not verify. -/
def loginFails (db : List User) (formUsername formPassword : String) : Bool :=
  match findByEmail db (strLower formUsername) with
  | none => true
  | some user => !(verify_password formPassword user.password_hash)

/-- Python's `int(s)` on a string: strip surrounding whitespace, then an
optional sign followed by a nonempty digit run in which single
underscores may separate digits; anything else raises `ValueError`
(modelled as `none`). Digit-run parser; that the first character is a
digit is enforced by `pyIntDigits`. -/
def pyIntDigitsAux (acc : Nat) : List Char → Option Nat
  | [] => some acc
  | '_' :: c :: cs =>
    if c.isDigit then pyIntDigitsAux (10 * acc + (c.toNat - 48)) cs else none
  | ['_'] => none
  | c :: cs =>
    if c.isDigit then pyIntDigitsAux (10 * acc + (c.toNat - 48)) cs else none

/-- Nonempty digit run with optional single underscores between digits. -/
def pyIntDigits : List Char → Option Nat
  | [] => none
  | c :: cs =>
    if c.isDigit then pyIntDigitsAux (c.toNat - 48) cs else none

/-- Strip surrounding whitespace, as Python `int()` does before
parsing. -/
def pyStrip (s : String) : List Char :=
  ((s.data.dropWhile Char.isWhitespace).reverse.dropWhile Char.isWhitespace).reverse

/-- Python `int(s)` for a string argument. -/
def pyInt (s : String) : Option Int :=
  match pyStrip s with
  | '+' :: rest => (pyIntDigits rest).map Int.ofNat
  | '-' :: rest => (pyIntDigits rest).map (fun n => -(n : Int))
  | rest => (pyIntDigits rest).map Int.ofNat

/-- `get_current_user` (`GET /api/user/me` in `routers/users.py`): verify
the bearer token (401 on failure), parse the subject with `int()` (401 on
`ValueError`/`TypeError`), look the user up by id (401 when absent),
otherwise return the user. -/
def get_current_user (s : AppState) (t : JwtToken) (now : Int) :
    Except HTTPError User :=
  match verify_access_token t now with
  | none => .error ⟨401, "Invalid or expired token", some "Bearer"⟩
  | some user_id =>
    match pyInt user_id with
    | none => .error ⟨401, "Invalid or expired token", some "Bearer"⟩
    | some user_id_int =>
      match s.users.find? (fun u => (u.id : Int) == user_id_int) with
      | none => .error ⟨401, "User not found", some "Bearer"⟩
      | some user => .ok user

/-- `delete_user` in `routers/users.py` (the handler in `main.py` is
identical): fetch the user by id, 404 when absent; otherwise delete the
row and, through the `cascade="all, delete-orphan"` relationship in
`models.py`, every post whose `user_id` is that user's id. `id` is the
primary key, so deleting the fetched row removes every row with that id. -/
def delete_user (s : AppState) (user_id : Nat) : Nat × AppState :=
  if s.users.any (fun u => u.id == user_id) then
    (204, ⟨s.users.filter (fun u => u.id != user_id),
           s.posts.filter (fun p => p.user_id != user_id)⟩)
  else
    (404, s)

/-! ### Post endpoints (`routers/posts.py`, `routers/users.py`, `main.py`) -/

/-- The ordering used by `.order_by(Post.date_posted.desc())`: the first
post's timestamp is at least the second's. -/
def postDateGE (a b : Post) : Prop :=
  b.date_posted ≤ a.date_posted

instance : DecidableRel postDateGE :=
  fun a b => Nat.decLe b.date_posted a.date_posted

instance : IsTotal Post postDateGE :=
  ⟨fun a b => (Nat.le_total b.date_posted a.date_posted).imp id id⟩

instance : IsTrans Post postDateGE :=
  ⟨fun _ _ _ hab hbc => Nat.le_trans hbc hab⟩

/-- `SELECT … ORDER BY date_posted DESC` over the stored rows: a stable
sort of the stored order by descending timestamp. -/
def orderByDatePostedDesc (l : List Post) : List Post :=
  l.insertionSort postDateGE

/-- `get_posts` in `routers/posts.py` (`GET /posts`): all posts, ordered
by `date_posted` descending. -/
def get_posts (s : AppState) : List Post :=
  orderByDatePostedDesc s.posts

/-- `get_user_posts` in `routers/users.py` (`GET /{user_id}/posts`):
404 when the user does not exist; otherwise the user's posts ordered by
`date_posted` descending, with 404 when that list is empty. -/
def get_user_posts (s : AppState) (user_id : Nat) : Except HTTPError (List Post) :=
  if s.users.any (fun u => u.id == user_id) then
    let posts := orderByDatePostedDesc (s.posts.filter (fun p => p.user_id == user_id))
    if posts.isEmpty then .error ⟨404, "User has no posts.", none⟩
    else .ok posts
  else
    .error ⟨404, "User not found.", none⟩

/-- The stale `get_posts` in `main.py` (`GET /api/posts`): the select has
no `ORDER BY`, so the rows come back in stored (insertion) order. -/
def mainGetPosts (s : AppState) : List Post :=
  s.posts

/-- The stale `get_user_posts` in `main.py`: same checks as the router
version but the posts select has no `ORDER BY`. -/
def mainGetUserPosts (s : AppState) (user_id : Nat) : Except HTTPError (List Post) :=
  if s.users.any (fun u => u.id == user_id) then
    let posts := s.posts.filter (fun p => p.user_id == user_id)
    if posts.isEmpty then .error ⟨404, "User has no posts.", none⟩
    else .ok posts
  else
    .error ⟨404, "User not found.", none⟩

/-- `create_post` in `routers/posts.py` (the `main.py` handler differs
only in taking `user_id` as a query parameter): 404 when no user has the
requested `user_id`, and nothing is added; otherwise insert the post with
`date_posted` defaulted to the current time and return 201. -/
def create_post (s : AppState) (nextId now : Nat) (post : PostCreate) :
    Nat × AppState :=
  if s.users.any (fun u => u.id == post.user_id) then
    (201, { s with posts := s.posts ++
              [{ id := nextId, title := post.title, content := post.content,
                 user_id := post.user_id, date_posted := now }] })
  else
    (404, s)

/-- Adjacent-pairs form of "newest first": every element's timestamp is
at least the next one's. -/
def newestFirst (l : List Post) : Prop :=
  l.Chain' postDateGE

/-- Executable check of `newestFirst`. -/
def newestFirstB : List Post → Bool
  | [] => true
  | [_] => true
  | a :: b :: rest => decide (b.date_posted ≤ a.date_posted) && newestFirstB (b :: rest)

theorem newestFirstB_iff (l : List Post) : newestFirstB l = true ↔ newestFirst l := by
  induction l with
  | nil => simp [newestFirstB, newestFirst]
  | cons a t ih =>
    cases t with
    | nil => simp [newestFirstB, newestFirst]
    | cons b t2 =>
      simp only [newestFirstB, Bool.and_eq_true, decide_eq_true_eq, newestFirst,
        List.chain'_cons, postDateGE]
      exact and_congr Iff.rfl ih

instance (l : List Post) : Decidable (newestFirst l) :=
  decidable_of_iff (newestFirstB l = true) (newestFirstB_iff l)

/-- The no-orphans invariant: every post's `user_id` references some
user row. -/
def noOrphans (s : AppState) : Prop :=
  ∀ p ∈ s.posts, ∃ u ∈ s.users, u.id = p.user_id

instance (s : AppState) : Decidable (noOrphans s) :=
  inferInstanceAs (Decidable (∀ p ∈ s.posts, ∃ u ∈ s.users, u.id = p.user_id))

/-! ## Theorems -/

/-- C1: `verify_access_token` returns the subject exactly when the token
decodes with a valid signature, carries both required claims `exp` and
`sub`, and is not past its expiry; in every other case the result is the
single sentinel `none` (the return type `Option String` has only that one
failure value, so no failure reason is distinguishable). -/
theorem verify_access_token_subject_iff (t : JwtToken) (now : Int) (s : String) :
    verify_access_token t now = some s ↔
      ∃ p, t = JwtToken.signed p ∧ p.sub = some s ∧ ∃ e, p.exp = some e ∧ now < e := by
  cases t with
  | malformed => simp [verify_access_token, jwtDecode]
  | signed p =>
    cases hexp : p.exp with
    | none => simp [verify_access_token, jwtDecode, hexp]
    | some e =>
      cases hsub : p.sub with
      | none => simp [verify_access_token, jwtDecode, hexp, hsub]
      | some s2 =>
        by_cases hle : e ≤ now
        · simp only [verify_access_token, jwtDecode, hexp, hsub, if_pos hle]
          constructor
          · intro h; exact absurd h (by simp)
          · rintro ⟨p', hp', _, e', he', hnow⟩
            cases hp'
            rw [hexp] at he'
            cases he'
            omega
        · simp only [verify_access_token, jwtDecode, hexp, hsub, if_neg hle]
          constructor
          · intro h
            exact ⟨p, rfl, by rw [hsub, h], e, hexp, by omega⟩
          · rintro ⟨p', hp', hs', _, _, _⟩
            cases hp'
            rw [hsub] at hs'
            exact hs'

/-- C8: hashing a password and verifying the same plaintext against the
produced hash succeeds, for every password and every salt the external
hasher may draw. -/
theorem verify_password_roundtrip (salt : Nat) (p : String) :
    verify_password p (password_hash salt p) = true := by
  simp [verify_password, password_hash, pwdlibVerify, pwdlibHash]

/-- Helper for the login theorems: whenever the decidable failure
condition holds (no user with that normalized email, or the stored hash
does not verify), the endpoint raises exactly the one 401 exception. -/
theorem login_fails_uniform (db : List User) (e p : String)
    (h : loginFails db e p = true) :
    login_for_access_token db e p =
      .error ⟨401, "Incorrect email or password", some "Bearer"⟩ := by
  unfold loginFails at h
  unfold login_for_access_token
  cases hf : findByEmail db (strLower e) with
  | none => rfl
  | some u =>
    rw [hf] at h
    simp only [Bool.not_eq_true'] at h
    simp [h]

/-- C3: any two failing login attempts — whether the email matches no
user or the email matches a user whose password does not verify —
produce the identical 401 outcome (same status, detail, and
`WWW-Authenticate` header), so the caller cannot distinguish them. -/
theorem login_failure_indistinguishable (db : List User) (e1 p1 e2 p2 : String)
    (h1 : loginFails db e1 p1 = true) (h2 : loginFails db e2 p2 = true) :
    login_for_access_token db e1 p1 = login_for_access_token db e2 p2 ∧
    login_for_access_token db e1 p1 =
      .error ⟨401, "Incorrect email or password", some "Bearer"⟩ :=
  ⟨(login_fails_uniform db e1 p1 h1).trans (login_fails_uniform db e2 p2 h2).symm,
   login_fails_uniform db e1 p1 h1⟩

/-- Concrete store for the C3 witness: one user whose email is
`a@x.com` with the hash of `secretpw`. -/
def c3Store : List User :=
  [⟨1, "alice", "a@x.com", password_hash 0 "secretpw", none⟩]

/-- C3 witness: the attempt `("A@X.com", "wrong")` fails on the password
of an existing user, the attempt `("nosuch@x.com", "anything")` fails on
the lookup, and both yield the identical 401 outcome. -/
theorem login_failure_indistinguishable_witness :
    login_for_access_token c3Store "A@X.com" "wrong" =
      login_for_access_token c3Store "nosuch@x.com" "anything" ∧
    login_for_access_token c3Store "A@X.com" "wrong" =
      .error ⟨401, "Incorrect email or password", some "Bearer"⟩ :=
  login_failure_indistinguishable c3Store "A@X.com" "wrong" "nosuch@x.com" "anything"
    (by decide) (by decide)

/-- C2 (amended): for the `create_user` in `routers/users.py` — given
that stored emails are in normalized (lower-case) form, as every write
path through the pydantic validators guarantees — any request whose
username matches an existing user's case-insensitively, or whose email
matches an existing user's case-insensitively, fails with 400 and the
user table is unchanged. -/
theorem create_user_conflict (salt nextId : Nat) (db : List User) (raw : UserCreate)
    (hstore : ∀ u ∈ db, strLower u.email = u.email)
    (hdup : ∃ u ∈ db, strLower u.username = strLower raw.username ∨
                      strLower u.email = strLower raw.email) :
    create_user salt nextId db raw = (400, db) := by
  obtain ⟨u, hu, hdup⟩ := hdup
  unfold create_user createUserValidated normalizeUserCreate
  rcases hdup with h | h
  · have hany : db.any (fun v => strLower v.username == strLower raw.username) = true :=
      List.any_eq_true.mpr ⟨u, hu, by simp [h]⟩
    simp [hany]
  · by_cases hname : db.any (fun v => strLower v.username == strLower raw.username) = true
    · simp [hname]
    · have hmail : db.any (fun v => v.email == strLower raw.email) = true := by
        refine List.any_eq_true.mpr ⟨u, hu, ?_⟩
        rw [← hstore u hu, h]
        simp
      simp only [Bool.not_eq_true] at hname
      simp [hname, hmail]

/-- Concrete store for the C2 witness: the user `alice` with email
`a@x.com`. -/
def c2Store : List User :=
  [⟨1, "alice", "a@x.com", password_hash 0 "password123", none⟩]

/-- C2 witness: after creating `alice`, creating `ALICE` (with a fresh
email) is rejected with 400 by the router handler and the table is
unchanged. -/
theorem create_user_conflict_witness :
    create_user 0 2 c2Store ⟨"ALICE", "b@x.com", "password123"⟩ = (400, c2Store) :=
  create_user_conflict 0 2 c2Store ⟨"ALICE", "b@x.com", "password123"⟩
    (by decide) (by decide)

/-- C2 counterexample: the `create_user` handler in `main.py` compares
usernames case-sensitively (`User.username == user.username`), so with
`alice` already stored, creating `ALICE` passes both duplicate checks —
it does not produce the claimed 400 conflict (the insert then violates
the `NOT NULL` constraint on `password_hash`, a 500, and persists
nothing). -/
theorem mainCreateUser_not_case_insensitive :
    mainCreateUser c2Store ⟨"ALICE", "b@x.com", "password123"⟩ = (500, c2Store) ∧
    (500 : Nat) ≠ 400 := by
  constructor
  · decide
  · decide

/-- C7 counterexample: creating `("Alice", "A@X.com")` into an empty
store succeeds and persists the username exactly as given — `"Alice"`,
which is not a case-normalized form of the input (its lower-casing is
`"alice"`) — while the email is persisted lower-cased. -/
theorem create_user_keeps_username_case :
    create_user 0 1 [] ⟨"Alice", "A@X.com", "password123"⟩ =
      (201, [⟨1, "Alice", "a@x.com", password_hash 0 "password123", none⟩]) ∧
    "Alice" ≠ strLower "Alice" := by
  constructor
  · decide
  · decide

/-- C7 (amended): `create_user` normalizes only the email's case — on
success the stored row carries the lower-cased input email but the input
username with its original case (the uniqueness check, not the stored
value, is what is case-insensitive for usernames). Either the table is
unchanged (a conflict) or exactly this row was appended. -/
theorem create_user_normalizes_email_only (salt nextId : Nat) (db : List User)
    (raw : UserCreate) :
    (create_user salt nextId db raw).2 = db ∨
    (create_user salt nextId db raw).2 =
      db ++ [⟨nextId, raw.username, strLower raw.email,
              password_hash salt raw.password, none⟩] := by
  unfold create_user createUserValidated normalizeUserCreate
  by_cases h1 : db.any (fun u => strLower u.username == strLower raw.username) = true
  · simp [h1]
  · by_cases h2 : db.any (fun u => u.email == strLower raw.email) = true
    · simp only [Bool.not_eq_true] at h1
      simp [h1, h2]
    · simp only [Bool.not_eq_true] at h1 h2
      simp [h1, h2]

/-- C4: deleting a user preserves the no-orphans invariant, and when the
requested user exists, no post owned by it survives: every post whose
`user_id` is the deleted id is cascade-deleted, and every remaining post
still references an existing user. -/
theorem delete_user_no_orphans (s : AppState) (user_id : Nat)
    (hinv : noOrphans s) :
    noOrphans (delete_user s user_id).2 ∧
    ((∃ u ∈ s.users, u.id = user_id) →
      ∀ p ∈ (delete_user s user_id).2.posts, p.user_id ≠ user_id) := by
  unfold delete_user
  by_cases hex : s.users.any (fun u => u.id == user_id) = true
  · simp only [hex, if_pos]
    constructor
    · intro p hp
      obtain ⟨hmem, hne⟩ := List.mem_filter.mp hp
      obtain ⟨u, hu, hid⟩ := hinv p hmem
      refine ⟨u, List.mem_filter.mpr ⟨hu, ?_⟩, hid⟩
      simpa [hid] using hne
    · intro _ p hp
      have := (List.mem_filter.mp hp).2
      simpa using this
  · simp only [Bool.not_eq_true] at hex
    simp only [hex, Bool.false_eq_true, if_false]
    refine ⟨hinv, ?_⟩
    rintro ⟨u, hu, hid⟩
    have : s.users.any (fun u => u.id == user_id) = true :=
      List.any_eq_true.mpr ⟨u, hu, by simp [hid]⟩
    rw [hex] at this
    cases this

/-- Concrete store for the C4 witness: two users each owning one post. -/
def c4Store : AppState :=
  ⟨[⟨1, "alice", "a@x.com", password_hash 0 "password123", none⟩,
    ⟨2, "bob", "b@x.com", password_hash 1 "password456", none⟩],
   [⟨1, "first", "hello", 1, 10⟩, ⟨2, "second", "world", 2, 20⟩]⟩

/-- C4 witness: deleting user 1 from the two-user store leaves no orphan
posts and no surviving post owned by user 1. -/
theorem delete_user_no_orphans_witness :
    noOrphans (delete_user c4Store 1).2 ∧
    ∀ p ∈ (delete_user c4Store 1).2.posts, p.user_id ≠ 1 :=
  ⟨(delete_user_no_orphans c4Store 1 (by decide)).1,
   (delete_user_no_orphans c4Store 1 (by decide)).2
     ⟨⟨1, "alice", "a@x.com", password_hash 0 "password123", none⟩, by decide, rfl⟩⟩

/-- C5: a create-post request whose `user_id` matches no user row fails
with 404 and leaves the state — in particular the post table — exactly
as it was. -/
theorem create_post_missing_user (s : AppState) (nextId now : Nat)
    (post : PostCreate) (h : ∀ u ∈ s.users, u.id ≠ post.user_id) :
    create_post s nextId now post = (404, s) := by
  unfold create_post
  have hany : s.users.any (fun u => u.id == post.user_id) = false := by
    rw [List.any_eq_false]
    intro u hu
    simp [h u hu]
  simp [hany]

/-- Concrete store for the C5 witness: one user with id 1. -/
def c5Store : AppState :=
  ⟨[⟨1, "alice", "a@x.com", password_hash 0 "password123", none⟩], []⟩

/-- C5 witness: creating a post owned by the nonexistent user 42 returns
404 and the state is unchanged. -/
theorem create_post_missing_user_witness :
    create_post c5Store 1 100 ⟨"t", "c", 42⟩ = (404, c5Store) :=
  create_post_missing_user c5Store 1 100 ⟨"t", "c", 42⟩ (by decide)

/-- Concrete store for C9: one user owning two posts, the older one
(timestamp 1) inserted before the newer one (timestamp 5). -/
def c9Store : AppState :=
  ⟨[⟨1, "alice", "a@x.com", password_hash 0 "password123", none⟩],
   [⟨1, "older", "first content", 1, 1⟩, ⟨2, "newer", "second content", 1, 5⟩]⟩

/-- C9 counterexample: the `get_posts` listing in `main.py`
(`GET /api/posts`, lines 271–275) has no `ORDER BY`, so it returns the
stored insertion order; with the older post inserted first the returned
sequence is oldest-first, violating the claimed newest-first order (the
claim covers "every post-listing operation" and cites this handler). -/
theorem mainGetPosts_not_newest_first :
    ¬ newestFirst (mainGetPosts c9Store) := by decide

/-- C9 (amended): the post listings in `routers/posts.py` (`GET /posts`)
and `routers/users.py` (`GET /{user_id}/posts`) do return the posts
newest first — every adjacent pair is non-increasing in `date_posted` —
while the stale listings in `main.py` apply no ordering. -/
theorem router_listings_newest_first (s : AppState) (user_id : Nat) :
    newestFirst (get_posts s) ∧
    ∀ l, get_user_posts s user_id = .ok l → newestFirst l := by
  have hsort : ∀ l : List Post, newestFirst (orderByDatePostedDesc l) := fun l =>
    List.Pairwise.chain' (List.sorted_insertionSort postDateGE l)
  constructor
  · exact hsort s.posts
  · intro l hl
    unfold get_user_posts at hl
    by_cases hex : s.users.any (fun u => u.id == user_id) = true
    · simp only [hex, if_pos] at hl
      by_cases hemp :
          (orderByDatePostedDesc (s.posts.filter (fun p => p.user_id == user_id))).isEmpty = true
      · simp [hemp] at hl
      · simp only [Bool.not_eq_true] at hemp
        simp only [hemp, Bool.false_eq_true, if_false, Except.ok.injEq] at hl
        rw [← hl]
        exact hsort _
    · simp only [Bool.not_eq_true] at hex
      simp [hex] at hl

/-- C9 witness: on the concrete store the router listing of all posts is
newest first, and the router listing of user 1's posts returns the
5-then-1 order, which is newest first. -/
theorem router_listings_newest_first_witness :
    newestFirst (get_posts c9Store) ∧
    newestFirst [⟨2, "newer", "second content", 1, 5⟩, ⟨1, "older", "first content", 1, 1⟩] :=
  ⟨(router_listings_newest_first c9Store 1).1,
   (router_listings_newest_first c9Store 1).2
     [⟨2, "newer", "second content", 1, 5⟩, ⟨1, "older", "first content", 1, 1⟩]
     rfl⟩

/-- C10: `GET /api/user/me` fails only with status 401 — in particular
when the token's subject does not parse as a Python integer, or parses
to an id with no matching user — and returns a user only when the
verified token's parsed subject is the id of an existing user row. -/
theorem get_current_user_spec (s : AppState) (t : JwtToken) (now : Int) :
    (∀ e, get_current_user s t now = .error e → e.status_code = 401) ∧
    (∀ u, get_current_user s t now = .ok u →
      ∃ sub, verify_access_token t now = some sub ∧
        ∃ n, pyInt sub = some n ∧ u ∈ s.users ∧ (u.id : Int) = n) := by
  refine ⟨fun e he => ?_, fun u hu => ?_⟩
  · unfold get_current_user at he
    split at he
    · cases he; rfl
    · split at he
      · cases he; rfl
      · split at he
        · cases he; rfl
        · cases he
  · unfold get_current_user at hu
    split at hu
    · cases hu
    · rename_i sub hv
      split at hu
      · cases hu
      · rename_i n hp
        split at hu
        · cases hu
        · rename_i user hf
          cases hu
          refine ⟨sub, hv, n, hp, List.mem_of_find?_eq_some hf, ?_⟩
          have := List.find?_some hf
          simpa using this

/-- Concrete store for the C10 witness: one user with id 1. -/
def c10Store : AppState :=
  ⟨[⟨1, "alice", "a@x.com", password_hash 0 "password123", none⟩], []⟩

/-- C10 witness: with an empty user table, a signature-valid unexpired
token whose subject `abc` does not parse as an integer is rejected, and
the theorem yields that the rejection status is 401; a token with
subject `1` against a store containing user 1 satisfies the
success-side characterization. -/
theorem get_current_user_spec_witness :
    (⟨401, "Invalid or expired token", some "Bearer"⟩ : HTTPError).status_code = 401 ∧
    (∃ sub, verify_access_token (.signed ⟨some "1", some 10⟩) 0 = some sub ∧
      ∃ n, pyInt sub = some n ∧
        (⟨1, "alice", "a@x.com", password_hash 0 "password123", none⟩ : User) ∈
          c10Store.users ∧
        ((1 : Nat) : Int) = n) :=
  ⟨(get_current_user_spec ⟨[], []⟩ (.signed ⟨some "abc", some 10⟩) 0).1
      ⟨401, "Invalid or expired token", some "Bearer"⟩ rfl,
   (get_current_user_spec c10Store (.signed ⟨some "1", some 10⟩) 0).2
      ⟨1, "alice", "a@x.com", password_hash 0 "password123", none⟩ rfl⟩

end FastAPIBlog
